import Mathlib

/-!
# Verification of the CRYPTEX vulnerability-assessment core

A shallow embedding, in Lean 4, of the scoring, parsing, caching, archive and
query layers of the `build_openvas` repository (crates `the_assessor`,
`the_archive`, `the_archive_query`, `the_infiltrator`), together with proofs
about them.

Modelling conventions:
* Rust `f64` is modelled as `ℚ` (every constant in the source is a decimal
  literal, and every operation used — `+`, `-`, `*`, `/`, `powi`, `min`,
  `max`, `ceil`, comparisons — is exact on the rationals involved).
* Rust `String` is modelled as Lean `String`; where the source calls
  `str::split`, the splitting is carried out on `List Char` by a structurally
  recursive function with the exact semantics of Rust's `split` so that the
  kernel can evaluate it on concrete inputs.
* Fallible functions return `Except String _` mirroring `Result<_, String>`.
* `chrono::DateTime<Utc>` values are opaque timestamps; they are modelled as
  their RFC3339 renderings (`String`), on which chronological order is the
  lexicographic one.
-/

/-- Rust `str::split(sep)` on a list of characters: the list of (possibly
empty) segments between occurrences of `sep`.  `split` of an empty string is
`[[]]`, exactly as in Rust. -/
def splitOnChar (sep : Char) : List Char → List (List Char)
  | [] => [[]]
  | c :: cs =>
    let rest := splitOnChar sep cs
    if c = sep then [] :: rest
    else
      match rest with
      | [] => [[c]]
      | h :: t => (c :: h) :: t

/-- CVSS v3.x base metrics (`the_assessor/src/types.rs`, `CvssV3Base`):
eight single-letter-coded fields, each kept as the raw string the vector
supplied. -/
structure CvssV3Base where
  attack_vector : String
  attack_complexity : String
  privileges_required : String
  user_interaction : String
  scope : String
  confidentiality : String
  integrity : String
  availability : String
deriving DecidableEq, Repr

/-- `attack_vector_value` of `cvss.rs`. -/
def attack_vector_value (av : String) : ℚ :=
  match av with
  | "N" => 0.85
  | "A" => 0.62
  | "L" => 0.55
  | "P" => 0.2
  | _ => 0

/-- `attack_complexity_value` of `cvss.rs`. -/
def attack_complexity_value (ac : String) : ℚ :=
  match ac with
  | "L" => 0.77
  | "H" => 0.44
  | _ => 0

/-- `privileges_required_value` of `cvss.rs`: conditioned on scope. -/
def privileges_required_value (pr scope : String) : ℚ :=
  if pr = "N" then 0.85
  else if pr = "L" ∧ scope = "U" then 0.62
  else if pr = "L" ∧ scope = "C" then 0.68
  else if pr = "H" ∧ scope = "U" then 0.27
  else if pr = "H" ∧ scope = "C" then 0.5
  else 0

/-- `user_interaction_value` of `cvss.rs`. -/
def user_interaction_value (ui : String) : ℚ :=
  match ui with
  | "N" => 0.85
  | "R" => 0.62
  | _ => 0

/-- `confidentiality_impact` of `cvss.rs`. -/
def confidentiality_impact (c : String) : ℚ :=
  match c with
  | "H" => 0.56
  | "L" => 0.22
  | "N" => 0
  | _ => 0

/-- `integrity_impact` of `cvss.rs`. -/
def integrity_impact (i : String) : ℚ :=
  match i with
  | "H" => 0.56
  | "L" => 0.22
  | "N" => 0
  | _ => 0

/-- `availability_impact` of `cvss.rs`. -/
def availability_impact (a : String) : ℚ :=
  match a with
  | "H" => 0.56
  | "L" => 0.22
  | "N" => 0
  | _ => 0

/-- `roundup` of `cvss.rs`: `(value * 10.0).ceil() / 10.0`, the ceiling at
one-decimal granularity. -/
def roundup (value : ℚ) : ℚ := (⌈value * 10⌉ : ℚ) / 10

/-- `calculate_cvss_v3_base_score` of `cvss.rs`, line for line. -/
def calculate_cvss_v3_base_score (metrics : CvssV3Base) : ℚ :=
  let isc_base : ℚ := 1 -
    ((1 - confidentiality_impact metrics.confidentiality) *
     (1 - integrity_impact metrics.integrity) *
     (1 - availability_impact metrics.availability))
  let impact : ℚ :=
    if metrics.scope = "U" then 6.42 * isc_base
    else 7.52 * (isc_base - 0.029) - 3.25 * (isc_base - 0.02) ^ 15
  let exploitability : ℚ := 8.22 *
    attack_vector_value metrics.attack_vector *
    attack_complexity_value metrics.attack_complexity *
    privileges_required_value metrics.privileges_required metrics.scope *
    user_interaction_value metrics.user_interaction
  if impact ≤ 0 then 0
  else if metrics.scope = "U" then roundup (min (impact + exploitability) 10)
  else roundup (min (1.08 * (impact + exploitability)) 10)

/-- The all-empty `CvssV3Base` that `parse_cvss_v3_vector` starts from. -/
def emptyMetrics : CvssV3Base :=
  { attack_vector := "", attack_complexity := "", privileges_required := "",
    user_interaction := "", scope := "", confidentiality := "",
    integrity := "", availability := "" }

/-- The body of the `for part in &parts[1..]` loop of `parse_cvss_v3_vector`:
one `KEY:VALUE` segment applied to the metrics being built.  Segments that do
not split on `:` into exactly two pieces, and keys other than the eight
recognized ones, leave the metrics unchanged. -/
def applyPart (m : CvssV3Base) (part : List Char) : CvssV3Base :=
  match splitOnChar ':' part with
  | [k, v] =>
    if k = "AV".toList then { m with attack_vector := v.asString }
    else if k = "AC".toList then { m with attack_complexity := v.asString }
    else if k = "PR".toList then { m with privileges_required := v.asString }
    else if k = "UI".toList then { m with user_interaction := v.asString }
    else if k = "S".toList then { m with scope := v.asString }
    else if k = "C".toList then { m with confidentiality := v.asString }
    else if k = "I".toList then { m with integrity := v.asString }
    else if k = "A".toList then { m with availability := v.asString }
    else m
  | _ => m

/-- `parse_cvss_v3_vector` of `cvss.rs`: split on `/`, demand the first
segment to begin with `CVSS:3`, fold the remaining `KEY:VALUE` segments into
the metrics, and demand every one of the eight fields to be non-empty. -/
def parse_cvss_v3_vector (vector : String) : Except String CvssV3Base :=
  let parts := splitOnChar '/' vector.toList
  if parts.isEmpty ∨ ¬ List.isPrefixOf "CVSS:3".toList (parts.headD []) then
    .error "Invalid CVSS v3 vector string"
  else
    let metrics := parts.tail.foldl applyPart emptyMetrics
    if metrics.attack_vector = "" ∨ metrics.attack_complexity = "" ∨
       metrics.privileges_required = "" ∨ metrics.user_interaction = "" ∨
       metrics.scope = "" ∨ metrics.confidentiality = "" ∨
       metrics.integrity = "" ∨ metrics.availability = "" then
      .error "Missing required CVSS metrics"
    else .ok metrics

/-- CVSS severity bands (`types.rs`, `CvssSeverity`), in declaration order. -/
inductive CvssSeverity where
  | none
  | low
  | medium
  | high
  | critical
deriving DecidableEq, Repr

/-- `CvssSeverity::from_score` of `types.rs`. -/
def CvssSeverity.from_score (score : ℚ) : CvssSeverity :=
  if score = 0 then .none
  else if score < 4 then .low
  else if score < 7 then .medium
  else if score < 9 then .high
  else .critical

/-- `CvssSeverity::as_str` of `types.rs`. -/
def CvssSeverity.as_str : CvssSeverity → String
  | .none => "None"
  | .low => "Low"
  | .medium => "Medium"
  | .high => "High"
  | .critical => "Critical"

/-- `CvssV3` of `types.rs`. -/
structure CvssV3 where
  base_metrics : CvssV3Base
  base_score : ℚ
  temporal_score : Option ℚ
  environmental_score : Option ℚ
  severity : CvssSeverity
  vector_string : String
deriving DecidableEq, Repr

/-- `cvss_v3_from_vector` of `cvss.rs`. -/
def cvss_v3_from_vector (vector : String) : Except String CvssV3 :=
  match parse_cvss_v3_vector vector with
  | .error e => .error e
  | .ok metrics =>
    let base_score := calculate_cvss_v3_base_score metrics
    .ok { base_metrics := metrics, base_score := base_score,
          temporal_score := none, environmental_score := none,
          severity := CvssSeverity.from_score base_score,
          vector_string := vector }

/-- `KevInfo` of `types.rs`. -/
structure KevInfo where
  is_kev : Bool
  date_added : Option String
  due_date : Option String
  required_action : Option String
  known_ransomware_use : Bool
deriving DecidableEq, Repr

/-- `EpssInfo` of `types.rs`. -/
structure EpssInfo where
  score : ℚ
  percentile : ℚ
  date : String
deriving DecidableEq, Repr

/-- `SsvcDecision` of `types.rs`. -/
inductive SsvcDecision where
  | track
  | trackStar
  | attend
  | act
deriving DecidableEq, Repr

/-- `SsvcInfo` of `types.rs`. -/
structure SsvcInfo where
  decision : SsvcDecision
  exploitation : String
  automatable : Bool
  technical_impact : String
deriving DecidableEq, Repr

/-- `VulnerabilityScore` of `types.rs`. -/
structure VulnerabilityScore where
  cve_id : String
  vulnerability_name : Option String
  description : Option String
  cvss_v3 : Option CvssV3
  kev : Option KevInfo
  epss : Option EpssInfo
  ssvc : Option SsvcInfo
  cwe_ids : List String
  references : List String
  published_date : Option String
  last_modified : Option String
  ai_risk_score : Option ℚ
  ai_priority : Option String
  ai_remediation_urgency : Option String
deriving DecidableEq, Repr

/-- `VulnerabilityScore::new` of `types.rs`. -/
def VulnerabilityScore.new (cve_id : String) : VulnerabilityScore :=
  { cve_id := cve_id, vulnerability_name := none, description := none,
    cvss_v3 := none, kev := none, epss := none, ssvc := none,
    cwe_ids := [], references := [], published_date := none,
    last_modified := none, ai_risk_score := none, ai_priority := none,
    ai_remediation_urgency := none }

/-- `VulnerabilityScore::cvss_base_score` of `types.rs`. -/
def VulnerabilityScore.cvss_base_score (s : VulnerabilityScore) : ℚ :=
  (s.cvss_v3.map (fun c => c.base_score)).getD 0

/-- `VulnerabilityScore::severity` of `types.rs`. -/
def VulnerabilityScore.severity (s : VulnerabilityScore) : CvssSeverity :=
  (s.cvss_v3.map (fun c => c.severity)).getD CvssSeverity.none

/-- `VulnerabilityScore::is_kev` of `types.rs`. -/
def VulnerabilityScore.is_kev (s : VulnerabilityScore) : Bool :=
  (s.kev.map (fun k => k.is_kev)).getD false

/-- `VulnerabilityScore::composite_risk_score` of `types.rs`, statement for
statement: normalize, EPSS blend, KEV multiplier, AI blend, clamp. -/
def VulnerabilityScore.composite_risk_score (s : VulnerabilityScore) : ℚ :=
  let score := s.cvss_base_score / 10
  let score :=
    match s.epss with
    | some epss => score * 0.6 + epss.score * 0.4
    | none => score
  let score := if s.is_kev then score * 1.5 else score
  let score :=
    match s.ai_risk_score with
    | some ai_score => score * 0.7 + (ai_score / 10) * 0.3
    | none => score
  max (min score 1) 0

/-- `TheAssessor::ai_enhance_score` of `scoring.rs`, as the pure record
transformation the method's body performs on its `score` argument. -/
def ai_enhance_score (score : VulnerabilityScore) : VulnerabilityScore :=
  let base_score := score.cvss_base_score
  let is_kev := score.is_kev
  let epss_score := (score.epss.map (fun e => e.score)).getD 0
  let ai_risk := base_score
  let ai_risk := if is_kev then min (ai_risk * 1.3) 10 else ai_risk
  let ai_risk := if epss_score > 0.5 then min (ai_risk + epss_score * 2.0) 10 else ai_risk
  { score with
    ai_risk_score := some ai_risk,
    ai_priority := some
      (if ai_risk ≥ 9 then "IMMEDIATE"
       else if ai_risk ≥ 7 then "HIGH"
       else if ai_risk ≥ 4 then "MEDIUM"
       else "LOW"),
    ai_remediation_urgency := some
      (if is_kev then "Patch within 24 hours"
       else if ai_risk ≥ 9 then "Patch within 7 days"
       else if ai_risk ≥ 7 then "Patch within 30 days"
       else "Patch as part of regular cycle") }

/-! ## The Assessor (`scoring.rs`)

`TheAssessor` holds a score cache (`HashMap<String, VulnerabilityScore>`
behind a lock) and a configuration flag.  The cache is modelled as a map
`String → Option VulnerabilityScore`; `assess_vulnerability` is modelled as a
pure state transformer that also reports how many times it ran the
enrichment-and-enhancement pipeline (`fetch_nvd_data`, `fetch_kev_data`,
`fetch_epss_data`, `ai_enhance_score`), so that "without re-invoking the
enrichment steps" is a statement about its result. -/

abbrev ScoreCache := String → Option VulnerabilityScore

/-- `TheAssessor::fetch_nvd_data` of `scoring.rs` (a deterministic stub in the
source: it enriches only ids starting with `CVE-2021-44228`).  The source
unwraps the vector parse, which succeeds on the hard-coded vector; the model
keeps the successfully parsed value through `Except.toOption`. -/
def fetch_nvd_data (score : VulnerabilityScore) : VulnerabilityScore :=
  if List.isPrefixOf "CVE-2021-44228".toList score.cve_id.toList then
    { score with
      vulnerability_name := some "Apache Log4j2 Remote Code Execution",
      description := some "Apache Log4j2 2.0-beta9 through 2.15.0 JNDI features used in configuration...",
      cvss_v3 := (cvss_v3_from_vector "CVSS:3.1/AV:N/AC:L/PR:N/UI:N/S:C/C:H/I:H/A:H").toOption,
      cwe_ids := ["CWE-502"] }
  else score

/-- `TheAssessor::fetch_kev_data` of `scoring.rs` (deterministic stub). -/
def fetch_kev_data (score : VulnerabilityScore) : VulnerabilityScore :=
  if List.isPrefixOf "CVE-2021-44228".toList score.cve_id.toList then
    { score with
      kev := some { is_kev := true, date_added := some "2021-12-10",
                    due_date := some "2021-12-24",
                    required_action := some "Apply updates per vendor instructions",
                    known_ransomware_use := true } }
  else score

/-- `TheAssessor::fetch_epss_data` of `scoring.rs` (deterministic stub). -/
def fetch_epss_data (score : VulnerabilityScore) : VulnerabilityScore :=
  if List.isPrefixOf "CVE-2021-44228".toList score.cve_id.toList then
    { score with
      epss := some { score := 0.975, percentile := 0.999, date := "2024-01-15" } }
  else score

/-- `TheAssessor::assess_vulnerability` of `scoring.rs` as a pure state
transformer on the score cache.  Returns the score, the cache after the call,
and the number of times the enrichment pipeline ran (0 on a cache hit, 1 on a
miss). -/
def assess_vulnerability (enable_ai_enhancement : Bool) (cache : ScoreCache)
    (cve_id : String) : VulnerabilityScore × ScoreCache × Nat :=
  match cache cve_id with
  | some score => (score, cache, 0)
  | none =>
    let score := VulnerabilityScore.new cve_id
    let score := fetch_nvd_data score
    let score := fetch_kev_data score
    let score := fetch_epss_data score
    let score := if enable_ai_enhancement then ai_enhance_score score else score
    (score, fun k => if k = cve_id then some score else cache k, 1)

/-! ## The Infiltrator (`the_infiltrator/src/types.rs`) -/

/-- `ScanResult` of `the_infiltrator/src/types.rs`. -/
structure ScanResult where
  cve_id : String
  host : String
  port : Nat
  plugin_oid : String
  description : String
  vulnerability_score : Option VulnerabilityScore
  remediation_guidance : Option String
  detection_time : Nat
  scanner_version : String
deriving DecidableEq, Repr

/-- `ScanResult::is_kev` of `the_infiltrator/src/types.rs`. -/
def ScanResult.is_kev (r : ScanResult) : Bool :=
  (r.vulnerability_score.map (fun s => s.is_kev)).getD false

/-- `ScanStatus` of `the_infiltrator/src/types.rs`. -/
inductive ScanStatus where
  | pending
  | running
  | completed
  | failed
deriving DecidableEq, Repr

/-- `ScanReport` of `the_infiltrator/src/types.rs`. -/
structure ScanReport where
  scan_id : String
  target : String
  start_time : Nat
  end_time : Option Nat
  status : ScanStatus
  scan_results : List ScanResult
  total_vulnerabilities : Nat
  critical_count : Nat
  high_count : Nat
  medium_count : Nat
  low_count : Nat
  kev_count : Nat
  total_hosts : Nat
  ai_enhanced_count : Nat
deriving DecidableEq, Repr

/-- `ScanReport::new` of `the_infiltrator/src/types.rs`; the wall-clock start
time is an explicit argument. -/
def ScanReport.new (scan_id target : String) (now : Nat) : ScanReport :=
  { scan_id := scan_id, target := target, start_time := now, end_time := none,
    status := .running, scan_results := [], total_vulnerabilities := 0,
    critical_count := 0, high_count := 0, medium_count := 0, low_count := 0,
    kev_count := 0, total_hosts := 0, ai_enhanced_count := 0 }

/-- `ScanReport::add_result` of `the_infiltrator/src/types.rs`. -/
def ScanReport.add_result (rep : ScanReport) (result : ScanResult) : ScanReport :=
  let rep :=
    match result.vulnerability_score with
    | some score =>
      match score.severity with
      | .critical => { rep with critical_count := rep.critical_count + 1 }
      | .high => { rep with high_count := rep.high_count + 1 }
      | .medium => { rep with medium_count := rep.medium_count + 1 }
      | .low => { rep with low_count := rep.low_count + 1 }
      | .none => rep
    | none => rep
  let rep := if result.is_kev then { rep with kev_count := rep.kev_count + 1 } else rep
  let rep :=
    if result.remediation_guidance.isSome then
      { rep with ai_enhanced_count := rep.ai_enhanced_count + 1 }
    else rep
  { rep with
    total_vulnerabilities := rep.total_vulnerabilities + 1,
    scan_results := rep.scan_results ++ [result] }

/-! ## The Archive (`the_archive/src/lib.rs`)

The archive is redb with three tables of CBOR-encoded values.  The embedding
models a CBOR document at the level of the CBOR data model: structs are maps
from field-name to value (serde_cbor's encoding of a Rust struct), C-like
enums are their variant name as text, `Option` is null-or-value, vectors are
arrays, floats are CBOR floats, unsigned integers are CBOR unsigned.  Each
table maps its string key to the stored CBOR document; `get` decodes and
turns an undecodable document into the per-call deserialization error, as the
source does. -/

/-- A CBOR document (the subset of the CBOR data model serde_cbor uses for
the types stored by the archive). -/
inductive Cbor where
  | unsigned : Nat → Cbor
  | text : String → Cbor
  | bool : Bool → Cbor
  | null : Cbor
  | float : ℚ → Cbor
  | array : List Cbor → Cbor
  | map : List (String × Cbor) → Cbor

/-- serde encoding of `Option`: null or the encoded value. -/
def encOpt (f : α → Cbor) : Option α → Cbor
  | Option.none => .null
  | some x => f x

/-- Decoder matching `encOpt`. -/
def decOpt (g : Cbor → Option α) : Cbor → Option (Option α)
  | .null => some Option.none
  | c => (g c).map some

/-- Decoder for a list of CBOR text items. -/
def decTexts : List Cbor → Option (List String)
  | [] => some []
  | .text s :: rest => (decTexts rest).map (fun l => s :: l)
  | _ => Option.none

def decText : Cbor → Option String
  | .text s => some s
  | _ => Option.none

def decRat : Cbor → Option ℚ
  | .float q => some q
  | _ => Option.none

def decBool : Cbor → Option Bool
  | .bool b => some b
  | _ => Option.none

def decNat : Cbor → Option Nat
  | .unsigned n => some n
  | _ => Option.none

def decStrList : Cbor → Option (List String)
  | .array items => decTexts items
  | _ => Option.none

/-- Field lookup in a CBOR map (serde deserializes a struct by field name). -/
def lookupField : List (String × Cbor) → String → Option Cbor
  | [], _ => Option.none
  | (k, v) :: rest, key => if k = key then some v else lookupField rest key

/-- serde encoding of the C-like enum `CvssSeverity`: its variant name. -/
def encodeSeverity (s : CvssSeverity) : Cbor := .text s.as_str

def decodeSeverity : Cbor → Option CvssSeverity
  | .text "None" => some .none
  | .text "Low" => some .low
  | .text "Medium" => some .medium
  | .text "High" => some .high
  | .text "Critical" => some .critical
  | _ => Option.none

/-- serde encoding of the C-like enum `SsvcDecision`: its variant name. -/
def encodeSsvcDecision : SsvcDecision → Cbor
  | .track => .text "Track"
  | .trackStar => .text "TrackStar"
  | .attend => .text "Attend"
  | .act => .text "Act"

def decodeSsvcDecision : Cbor → Option SsvcDecision
  | .text "Track" => some .track
  | .text "TrackStar" => some .trackStar
  | .text "Attend" => some .attend
  | .text "Act" => some .act
  | _ => Option.none

def encodeCvssV3Base (m : CvssV3Base) : Cbor :=
  .map [("attack_vector", .text m.attack_vector),
        ("attack_complexity", .text m.attack_complexity),
        ("privileges_required", .text m.privileges_required),
        ("user_interaction", .text m.user_interaction),
        ("scope", .text m.scope),
        ("confidentiality", .text m.confidentiality),
        ("integrity", .text m.integrity),
        ("availability", .text m.availability)]

def decodeCvssV3Base : Cbor → Option CvssV3Base
  | .map l => do
    let av ← (lookupField l "attack_vector").bind decText
    let ac ← (lookupField l "attack_complexity").bind decText
    let pr ← (lookupField l "privileges_required").bind decText
    let ui ← (lookupField l "user_interaction").bind decText
    let sc ← (lookupField l "scope").bind decText
    let c ← (lookupField l "confidentiality").bind decText
    let i ← (lookupField l "integrity").bind decText
    let a ← (lookupField l "availability").bind decText
    some { attack_vector := av, attack_complexity := ac,
           privileges_required := pr, user_interaction := ui, scope := sc,
           confidentiality := c, integrity := i, availability := a }
  | _ => Option.none

def encodeCvssV3 (c : CvssV3) : Cbor :=
  .map [("base_metrics", encodeCvssV3Base c.base_metrics),
        ("base_score", .float c.base_score),
        ("temporal_score", encOpt Cbor.float c.temporal_score),
        ("environmental_score", encOpt Cbor.float c.environmental_score),
        ("severity", encodeSeverity c.severity),
        ("vector_string", .text c.vector_string)]

def decodeCvssV3 : Cbor → Option CvssV3
  | .map l => do
    let bm ← (lookupField l "base_metrics").bind decodeCvssV3Base
    let bs ← (lookupField l "base_score").bind decRat
    let ts ← (lookupField l "temporal_score").bind (decOpt decRat)
    let es ← (lookupField l "environmental_score").bind (decOpt decRat)
    let sev ← (lookupField l "severity").bind decodeSeverity
    let vs ← (lookupField l "vector_string").bind decText
    some { base_metrics := bm, base_score := bs, temporal_score := ts,
           environmental_score := es, severity := sev, vector_string := vs }
  | _ => Option.none

def encodeKevInfo (k : KevInfo) : Cbor :=
  .map [("is_kev", .bool k.is_kev),
        ("date_added", encOpt Cbor.text k.date_added),
        ("due_date", encOpt Cbor.text k.due_date),
        ("required_action", encOpt Cbor.text k.required_action),
        ("known_ransomware_use", .bool k.known_ransomware_use)]

def decodeKevInfo : Cbor → Option KevInfo
  | .map l => do
    let ik ← (lookupField l "is_kev").bind decBool
    let da ← (lookupField l "date_added").bind (decOpt decText)
    let dd ← (lookupField l "due_date").bind (decOpt decText)
    let ra ← (lookupField l "required_action").bind (decOpt decText)
    let kru ← (lookupField l "known_ransomware_use").bind decBool
    some { is_kev := ik, date_added := da, due_date := dd,
           required_action := ra, known_ransomware_use := kru }
  | _ => Option.none

def encodeEpssInfo (e : EpssInfo) : Cbor :=
  .map [("score", .float e.score),
        ("percentile", .float e.percentile),
        ("date", .text e.date)]

def decodeEpssInfo : Cbor → Option EpssInfo
  | .map l => do
    let s ← (lookupField l "score").bind decRat
    let p ← (lookupField l "percentile").bind decRat
    let d ← (lookupField l "date").bind decText
    some { score := s, percentile := p, date := d }
  | _ => Option.none

def encodeSsvcInfo (s : SsvcInfo) : Cbor :=
  .map [("decision", encodeSsvcDecision s.decision),
        ("exploitation", .text s.exploitation),
        ("automatable", .bool s.automatable),
        ("technical_impact", .text s.technical_impact)]

def decodeSsvcInfo : Cbor → Option SsvcInfo
  | .map l => do
    let d ← (lookupField l "decision").bind decodeSsvcDecision
    let e ← (lookupField l "exploitation").bind decText
    let au ← (lookupField l "automatable").bind decBool
    let ti ← (lookupField l "technical_impact").bind decText
    some { decision := d, exploitation := e, automatable := au,
           technical_impact := ti }
  | _ => Option.none

def encodeVulnerabilityScore (v : VulnerabilityScore) : Cbor :=
  .map [("cve_id", .text v.cve_id),
        ("vulnerability_name", encOpt Cbor.text v.vulnerability_name),
        ("description", encOpt Cbor.text v.description),
        ("cvss_v3", encOpt encodeCvssV3 v.cvss_v3),
        ("kev", encOpt encodeKevInfo v.kev),
        ("epss", encOpt encodeEpssInfo v.epss),
        ("ssvc", encOpt encodeSsvcInfo v.ssvc),
        ("cwe_ids", .array (v.cwe_ids.map Cbor.text)),
        ("references", .array (v.references.map Cbor.text)),
        ("published_date", encOpt Cbor.text v.published_date),
        ("last_modified", encOpt Cbor.text v.last_modified),
        ("ai_risk_score", encOpt Cbor.float v.ai_risk_score),
        ("ai_priority", encOpt Cbor.text v.ai_priority),
        ("ai_remediation_urgency", encOpt Cbor.text v.ai_remediation_urgency)]

def decodeVulnerabilityScore : Cbor → Option VulnerabilityScore
  | .map l => do
    let cve ← (lookupField l "cve_id").bind decText
    let vn ← (lookupField l "vulnerability_name").bind (decOpt decText)
    let d ← (lookupField l "description").bind (decOpt decText)
    let cv ← (lookupField l "cvss_v3").bind (decOpt decodeCvssV3)
    let kv ← (lookupField l "kev").bind (decOpt decodeKevInfo)
    let ep ← (lookupField l "epss").bind (decOpt decodeEpssInfo)
    let sv ← (lookupField l "ssvc").bind (decOpt decodeSsvcInfo)
    let cwes ← (lookupField l "cwe_ids").bind decStrList
    let refs ← (lookupField l "references").bind decStrList
    let pd ← (lookupField l "published_date").bind (decOpt decText)
    let lm ← (lookupField l "last_modified").bind (decOpt decText)
    let ar ← (lookupField l "ai_risk_score").bind (decOpt decRat)
    let ap ← (lookupField l "ai_priority").bind (decOpt decText)
    let au ← (lookupField l "ai_remediation_urgency").bind (decOpt decText)
    some { cve_id := cve, vulnerability_name := vn, description := d,
           cvss_v3 := cv, kev := kv, epss := ep, ssvc := sv, cwe_ids := cwes,
           references := refs, published_date := pd, last_modified := lm,
           ai_risk_score := ar, ai_priority := ap,
           ai_remediation_urgency := au }
  | _ => Option.none

/-- `ScanMetadata` of `the_archive/src/lib.rs` (dates as RFC3339 strings). -/
structure ScanMetadata where
  scan_id : String
  target : String
  started_at : String
  ended_at : Option String
  status : String
  total_vulnerabilities : Nat
  critical : Nat
  high : Nat
  medium : Nat
  low : Nat
deriving DecidableEq, Repr

def encodeScanMetadata (m : ScanMetadata) : Cbor :=
  .map [("scan_id", .text m.scan_id),
        ("target", .text m.target),
        ("started_at", .text m.started_at),
        ("ended_at", encOpt Cbor.text m.ended_at),
        ("status", .text m.status),
        ("total_vulnerabilities", .unsigned m.total_vulnerabilities),
        ("critical", .unsigned m.critical),
        ("high", .unsigned m.high),
        ("medium", .unsigned m.medium),
        ("low", .unsigned m.low)]

def decodeScanMetadata : Cbor → Option ScanMetadata
  | .map l => do
    let sid ← (lookupField l "scan_id").bind decText
    let tgt ← (lookupField l "target").bind decText
    let sa ← (lookupField l "started_at").bind decText
    let ea ← (lookupField l "ended_at").bind (decOpt decText)
    let st ← (lookupField l "status").bind decText
    let tv ← (lookupField l "total_vulnerabilities").bind decNat
    let c ← (lookupField l "critical").bind decNat
    let h ← (lookupField l "high").bind decNat
    let m ← (lookupField l "medium").bind decNat
    let lo ← (lookupField l "low").bind decNat
    some { scan_id := sid, target := tgt, started_at := sa, ended_at := ea,
           status := st, total_vulnerabilities := tv, critical := c,
           high := h, medium := m, low := lo }
  | _ => Option.none

/-- `StoredVulnerability` of `the_archive/src/lib.rs`. -/
structure StoredVulnerability where
  cve_id : String
  score : VulnerabilityScore
  cached_at : String
deriving DecidableEq, Repr

def encodeStoredVulnerability (s : StoredVulnerability) : Cbor :=
  .map [("cve_id", .text s.cve_id),
        ("score", encodeVulnerabilityScore s.score),
        ("cached_at", .text s.cached_at)]

def decodeStoredVulnerability : Cbor → Option StoredVulnerability
  | .map l => do
    let cve ← (lookupField l "cve_id").bind decText
    let sc ← (lookupField l "score").bind decodeVulnerabilityScore
    let ca ← (lookupField l "cached_at").bind decText
    some { cve_id := cve, score := sc, cached_at := ca }
  | _ => Option.none

/-- `TheArchive`: the three redb tables, each a string-keyed map of CBOR
documents. -/
structure TheArchive where
  scans : String → Option Cbor
  vulnerabilities : String → Option Cbor
  scan_results : String → Option Cbor

/-- `TheArchive::the_awakening` on a fresh database file: three empty
tables. -/
def TheArchive.the_awakening : TheArchive :=
  { scans := fun _ => Option.none,
    vulnerabilities := fun _ => Option.none,
    scan_results := fun _ => Option.none }

/-- `TheArchive::store_scan_metadata`: serialize and insert under
`metadata.scan_id`. -/
def TheArchive.store_scan_metadata (a : TheArchive) (metadata : ScanMetadata) :
    TheArchive :=
  { a with scans := fun k =>
      if k = metadata.scan_id then some (encodeScanMetadata metadata)
      else a.scans k }

/-- `TheArchive::get_scan_metadata`: read the scans table; a missing key is
`Ok(None)`, an undecodable document is the deserialization error. -/
def TheArchive.get_scan_metadata (a : TheArchive) (scan_id : String) :
    Except String (Option ScanMetadata) :=
  match a.scans scan_id with
  | Option.none => .ok Option.none
  | some data =>
    match decodeScanMetadata data with
    | some metadata => .ok (some metadata)
    | Option.none => .error "Failed to deserialize scan metadata"

/-- `TheArchive::store_vulnerability`: wrap into a `StoredVulnerability`
stamped with the wall-clock time (an explicit argument here), serialize, and
insert under `score.cve_id`. -/
def TheArchive.store_vulnerability (a : TheArchive) (now : String)
    (score : VulnerabilityScore) : TheArchive :=
  let stored : StoredVulnerability :=
    { cve_id := score.cve_id, score := score, cached_at := now }
  { a with vulnerabilities := fun k =>
      if k = score.cve_id then some (encodeStoredVulnerability stored)
      else a.vulnerabilities k }

/-- `TheArchive::get_vulnerability`: read the vulnerabilities table; a
missing key is `Ok(None)`, an undecodable document is the deserialization
error. -/
def TheArchive.get_vulnerability (a : TheArchive) (cve_id : String) :
    Except String (Option StoredVulnerability) :=
  match a.vulnerabilities cve_id with
  | Option.none => .ok Option.none
  | some data =>
    match decodeStoredVulnerability data with
    | some stored => .ok (some stored)
    | Option.none => .error "Failed to deserialize vulnerability"

/-! ## The Archive Query (`the_archive_query/src/lib.rs`) -/

/-- Rust `str::contains(pat)`: `pat` occurs as a contiguous substring. -/
def containsSubstr (s pat : String) : Bool :=
  (List.range (s.toList.length + 1)).any
    (fun i => List.isPrefixOf pat.toList (s.toList.drop i))

/-- `SortOrder` of `the_archive_query/src/lib.rs`. -/
inductive SortOrder where
  | ascending
  | descending
deriving DecidableEq, Repr

/-- `SortField` of `the_archive_query/src/lib.rs`. -/
inductive SortField where
  | cveId
  | severity
  | cvssScore
  | cachedAt
deriving DecidableEq, Repr

/-- `QueryFilters` of `the_archive_query/src/lib.rs`. -/
structure QueryFilters where
  severity : Option String
  is_kev : Option Bool
  min_cvss : Option ℚ
  max_cvss : Option ℚ
  cached_after : Option String
  cached_before : Option String
  sort_by : Option SortField
  sort_order : Option SortOrder
  limit : Option Nat
  offset : Option Nat
deriving Repr

/-- `QueryFilters::new` (= `Default::default()`): every filter unset. -/
def QueryFilters.new : QueryFilters :=
  { severity := Option.none, is_kev := Option.none, min_cvss := Option.none,
    max_cvss := Option.none, cached_after := Option.none,
    cached_before := Option.none, sort_by := Option.none,
    sort_order := Option.none, limit := Option.none, offset := Option.none }

/-- `QueryFilters::matches`: the early-return chain of the source written as
the conjunction of its guards (the method returns `true` exactly when no
specified filter rejects). -/
def QueryFilters.matches (f : QueryFilters) (vuln : StoredVulnerability) : Bool :=
  (match f.severity with
   | some sev =>
     containsSubstr (CvssSeverity.as_str vuln.score.severity).toLower sev.toLower
   | Option.none => true) &&
  (match f.is_kev with
   | some b => vuln.score.is_kev == b
   | Option.none => true) &&
  (match f.min_cvss with
   | some m => decide (¬ vuln.score.cvss_base_score < m)
   | Option.none => true) &&
  (match f.max_cvss with
   | some m => decide (¬ m < vuln.score.cvss_base_score)
   | Option.none => true) &&
  (match f.cached_after with
   | some d => decide (¬ vuln.cached_at < d)
   | Option.none => true) &&
  (match f.cached_before with
   | some d => decide (¬ d < vuln.cached_at)
   | Option.none => true)

/-- The severity rank the derived `Ord` on `CvssSeverity` compares by
(declaration order `None < Low < Medium < High < Critical`). -/
def severityRank : CvssSeverity → Nat
  | .none => 0
  | .low => 1
  | .medium => 2
  | .high => 3
  | .critical => 4

/-- Three-way comparison in a linear order (Rust `Ord::cmp`, and
`partial_cmp` on the always-comparable values used here). -/
def ordCmp {α : Type} [LinearOrder α] (x y : α) : Ordering :=
  if x < y then .lt else if x = y then .eq else .gt

/-- The `match sort_by` comparator inside `query_vulnerabilities`. -/
def sortKeyCmp : SortField → StoredVulnerability → StoredVulnerability → Ordering
  | .cveId, a, b => ordCmp a.cve_id b.cve_id
  | .severity, a, b => ordCmp (severityRank a.score.severity) (severityRank b.score.severity)
  | .cvssScore, a, b => ordCmp a.score.cvss_base_score b.score.cvss_base_score
  | .cachedAt, a, b => ordCmp a.cached_at b.cached_at

/-- The sort relation `query_vulnerabilities` sorts by: the comparator
(reversed when descending, Rust `Ordering::reverse`) does not say `gt`. -/
def sortLe (f : SortField) (ord : SortOrder) (a b : StoredVulnerability) : Bool :=
  let c := sortKeyCmp f a b
  let c := match ord with | .ascending => c | .descending => c.swap
  decide (¬ c = Ordering.gt)

/-- `take(limit.unwrap_or(usize::MAX))`: an absent limit takes everything. -/
def takeOpt (lim : Option Nat) (l : List StoredVulnerability) :
    List StoredVulnerability :=
  match lim with
  | some n => l.take n
  | Option.none => l

/-- `ArchiveQuery::query_vulnerabilities` on a snapshot of the stored
vulnerabilities: filter, then sort when a sort field is given (order
defaulting to descending), then paginate (`skip(offset.unwrap_or(0))`, then
`take(limit.unwrap_or(usize::MAX))`). -/
def query_vulnerabilities (filters : QueryFilters)
    (all_vulns : List StoredVulnerability) : List StoredVulnerability :=
  let results := all_vulns.filter (fun v => filters.matches v)
  let results :=
    match filters.sort_by with
    | some sf => results.mergeSort (sortLe sf (filters.sort_order.getD .descending))
    | Option.none => results
  takeOpt filters.limit (results.drop (filters.offset.getD 0))

/-! ## Definitions taken from the specification's words

Each definition below follows a sentence of the specification (not the
source); the theorems compare them with the definitions above, which were
translated from the source. -/

/-- The enumerated domains §3 of the spec gives for the eight fields. -/
def CvssV3Base.inEnumeratedDomains (m : CvssV3Base) : Prop :=
  m.attack_vector ∈ ["N", "A", "L", "P"] ∧
  m.attack_complexity ∈ ["L", "H"] ∧
  m.privileges_required ∈ ["N", "L", "H"] ∧
  m.user_interaction ∈ ["N", "R"] ∧
  m.scope ∈ ["U", "C"] ∧
  m.confidentiality ∈ ["N", "L", "H"] ∧
  m.integrity ∈ ["N", "L", "H"] ∧
  m.availability ∈ ["N", "L", "H"]

instance (m : CvssV3Base) : Decidable m.inEnumeratedDomains := by
  unfold CvssV3Base.inEnumeratedDomains; infer_instance

/-- The base-score computation as the claim words it: impact subscore
`isc = 1 - (1-C)(1-I)(1-A)` with `High = 0.56`, `Low = 0.22`, `None = 0.0`,
scaled by `6.42` (scope unchanged) or `7.52*(isc-0.029) - 3.25*(isc-0.02)^15`
(changed); exploitability `8.22 * AV * AC * PR * UI` with PR conditioned on
scope; result `0` when impact ≤ 0, else `min(10, impact+exploitability)`
(unchanged) or `min(10, 1.08*(impact+exploitability))` (changed), rounded up
to one decimal. -/
def spec_cia (s : String) : ℚ :=
  if s = "H" then 0.56 else if s = "L" then 0.22 else 0

def spec_cvss_base_score (m : CvssV3Base) : ℚ :=
  let isc : ℚ := 1 - (1 - spec_cia m.confidentiality) * (1 - spec_cia m.integrity) * (1 - spec_cia m.availability)
  let unchanged := m.scope = "U"
  let impact : ℚ :=
    if unchanged then 6.42 * isc
    else 7.52 * (isc - 0.029) - 3.25 * (isc - 0.02) ^ 15
  let exploitability : ℚ := 8.22 *
    attack_vector_value m.attack_vector *
    attack_complexity_value m.attack_complexity *
    privileges_required_value m.privileges_required m.scope *
    user_interaction_value m.user_interaction
  if impact ≤ 0 then 0
  else if unchanged then roundup (min 10 (impact + exploitability))
  else roundup (min 10 (1.08 * (impact + exploitability)))

/-- `composite_risk_score` as the claim words it: `cvss/10`; EPSS blend
`0.6/0.4`; KEV multiplier `1.5`; AI blend `0.7/0.3`; clamp to `[0, 1]`. -/
def spec_composite_risk_score (s : VulnerabilityScore) : ℚ :=
  let score := s.cvss_base_score / 10
  let score :=
    match s.epss with
    | some epss => score * 0.6 + epss.score * 0.4
    | Option.none => score
  let score := if s.is_kev then score * 1.5 else score
  let score :=
    match s.ai_risk_score with
    | some ai => score * 0.7 + (ai / 10) * 0.3
    | Option.none => score
  min 1 (max 0 score)

/-- The heuristic enhancement as the claim words it: `ai_risk =
cvss_base_score`; if KEV, `min(10, ai_risk*1.3)`; if EPSS score `> 0.5`,
`min(10, ai_risk + epss*2.0)`; priority `≥9` IMMEDIATE / `≥7` HIGH / `≥4`
MEDIUM / else LOW; urgency 24-hours when KEV, else 7-days when `≥9`, 30-days
when `≥7`, else the regular cycle. -/
def spec_ai_enhance (v : VulnerabilityScore) : VulnerabilityScore :=
  let epss_score := (v.epss.map (fun e => e.score)).getD 0
  let ai_risk := v.cvss_base_score
  let ai_risk := if v.is_kev then min 10 (ai_risk * 1.3) else ai_risk
  let ai_risk := if epss_score > 0.5 then min 10 (ai_risk + epss_score * 2.0) else ai_risk
  { v with
    ai_risk_score := some ai_risk,
    ai_priority := some
      (if ai_risk ≥ 9 then "IMMEDIATE"
       else if ai_risk ≥ 7 then "HIGH"
       else if ai_risk ≥ 4 then "MEDIUM"
       else "LOW"),
    ai_remediation_urgency := some
      (if v.is_kev then "Patch within 24 hours"
       else if ai_risk ≥ 9 then "Patch within 7 days"
       else if ai_risk ≥ 7 then "Patch within 30 days"
       else "Patch as part of regular cycle") }

/-- The value the last well-formed `KEY:VALUE` pair with the given key
supplies (later pairs overwrite earlier ones). -/
def metricValueOf (key part : List Char) : Option (List Char) :=
  match splitOnChar ':' part with
  | [k, v] => if k = key then some v else Option.none
  | _ => Option.none

/-- The value a `/`-separated segment list supplies for a metric key. -/
def suppliedValue (segs : List (List Char)) (key : List Char) : Option (List Char) :=
  segs.reverse.findSome? (metricValueOf key)

/-- A segment list supplies a metric when its last `KEY:VALUE` pair for the
key carries a non-empty value. -/
def suppliesMetric (segs : List (List Char)) (key : List Char) : Bool :=
  match suppliedValue segs key with
  | some v => !v.isEmpty
  | Option.none => false

/-- The eight required metric keys. -/
def requiredKeys : List (List Char) :=
  ["AV".toList, "AC".toList, "PR".toList, "UI".toList,
   "S".toList, "C".toList, "I".toList, "A".toList]

/-- A segment that is a well-formed `KEY:VALUE` pair whose key is one of the
eight required metrics. -/
def recognizedPair (part : List Char) : Bool :=
  match splitOnChar ':' part with
  | [k, _] => decide (k ∈ requiredKeys)
  | _ => false

/-- The Log4Shell scope-changed vector used by the source's own tests. -/
def log4shellVector : String := "CVSS:3.1/AV:N/AC:L/PR:N/UI:N/S:C/C:H/I:H/A:H"

/-- The metrics the Log4Shell vector parses to. -/
def log4shellMetrics : CvssV3Base :=
  { attack_vector := "N", attack_complexity := "L", privileges_required := "N",
    user_interaction := "N", scope := "C", confidentiality := "H",
    integrity := "H", availability := "H" }

/-- A scan result carrying a Critical-severity vulnerability score (used as
a concrete input by witnesses). -/
def sampleCriticalResult : ScanResult :=
  { cve_id := "CVE-A", host := "10.0.0.1", port := 443, plugin_oid := "1.3.6",
    description := "d",
    vulnerability_score := some
      { VulnerabilityScore.new "CVE-A" with
        cvss_v3 := some
          { base_metrics := log4shellMetrics, base_score := 9.8,
            temporal_score := Option.none, environmental_score := Option.none,
            severity := .critical, vector_string := "" } },
    remediation_guidance := Option.none, detection_time := 0,
    scanner_version := "CRYPTEX 1.0.0" }

/-- A scan result carrying a KEV-flagged score with no CVSS data (used as a
concrete input by witnesses). -/
def sampleKevResult : ScanResult :=
  { cve_id := "CVE-B", host := "10.0.0.2", port := 22, plugin_oid := "1.3.7",
    description := "d",
    vulnerability_score := some
      { VulnerabilityScore.new "CVE-B" with
        kev := some
          { is_kev := true, date_added := Option.none,
            due_date := Option.none, required_action := Option.none,
            known_ransomware_use := false } },
    remediation_guidance := Option.none, detection_time := 0,
    scanner_version := "CRYPTEX 1.0.0" }

/-- The predicate "the embedded vulnerability score has this severity". -/
def hasSeverity (sev : CvssSeverity) (r : ScanResult) : Bool :=
  decide (r.vulnerability_score.map VulnerabilityScore.severity = some sev)

/-! ## Theorems -/

theorem confidentiality_impact_eq_spec_cia (s : String) :
    confidentiality_impact s = spec_cia s := by
  unfold spec_cia confidentiality_impact
  split_ifs with h1 h2
  · subst h1; rfl
  · subst h2; rfl
  · split <;> simp_all

theorem integrity_impact_eq_spec_cia (s : String) :
    integrity_impact s = spec_cia s := by
  unfold spec_cia integrity_impact
  split_ifs with h1 h2
  · subst h1; rfl
  · subst h2; rfl
  · split <;> simp_all

theorem availability_impact_eq_spec_cia (s : String) :
    availability_impact s = spec_cia s := by
  unfold spec_cia availability_impact
  split_ifs with h1 h2
  · subst h1; rfl
  · subst h2; rfl
  · split <;> simp_all

/-- C1: for every `CvssV3Base` with all eight fields in their enumerated
domains, `calculate_cvss_v3_base_score` returns exactly the CVSS v3.1
two-stage value the specification describes: impact subscore
`1 - (1-C)(1-I)(1-A)` (High 0.56 / Low 0.22 / None 0), scaled by 6.42 when
scope is unchanged and by `7.52(isc-0.029) - 3.25(isc-0.02)^15` when changed;
exploitability `8.22·AV·AC·PR·UI` with PR conditioned on scope; 0 when
impact ≤ 0, else `min(10, impact+exploitability)` (resp. the 1.08 variant),
rounded up to one decimal. -/
theorem calculate_cvss_v3_base_score_matches_spec (m : CvssV3Base)
    (_h : m.inEnumeratedDomains) :
    calculate_cvss_v3_base_score m = spec_cvss_base_score m := by
  unfold calculate_cvss_v3_base_score spec_cvss_base_score
  simp only [confidentiality_impact_eq_spec_cia, integrity_impact_eq_spec_cia,
    availability_impact_eq_spec_cia, min_comm]

/-- Witness for C1 at the scope-unchanged all-High vector. -/
theorem calculate_cvss_v3_base_score_matches_spec_witness :
    CvssV3Base.inEnumeratedDomains
      { attack_vector := "N", attack_complexity := "L",
        privileges_required := "N", user_interaction := "N", scope := "U",
        confidentiality := "H", integrity := "H", availability := "H" } ∧
    calculate_cvss_v3_base_score
      { attack_vector := "N", attack_complexity := "L",
        privileges_required := "N", user_interaction := "N", scope := "U",
        confidentiality := "H", integrity := "H", availability := "H" } =
    spec_cvss_base_score
      { attack_vector := "N", attack_complexity := "L",
        privileges_required := "N", user_interaction := "N", scope := "U",
        confidentiality := "H", integrity := "H", availability := "H" } :=
  ⟨by decide, calculate_cvss_v3_base_score_matches_spec _ (by decide)⟩

theorem clamp_comm (x : ℚ) : max (min x 1) 0 = min 1 (max 0 x) := by
  rcases le_total x 0 with h | h
  · rw [max_eq_right (min_le_of_left_le h), max_eq_left h]
    rw [min_eq_right (by norm_num : (0 : ℚ) ≤ 1)]
  · rcases le_total x 1 with h1 | h1
    · rw [min_eq_left h1, max_eq_left h, max_eq_right h, min_eq_right h1]
    · rw [min_eq_right h1, max_eq_left (by norm_num : (0:ℚ) ≤ 1),
        max_eq_right h, min_eq_left h1]

/-- C2: `composite_risk_score` computes exactly the blend the specification
describes — CVSS/10, then the 0.6/0.4 EPSS blend when EPSS is present, then
the 1.5 KEV multiplier, then the 0.7/0.3 AI blend, then the clamp — and its
value always lies in `[0, 1]`, for every combination of present and absent
fields. -/
theorem composite_risk_score_correct (s : VulnerabilityScore) :
    s.composite_risk_score = spec_composite_risk_score s ∧
    0 ≤ s.composite_risk_score ∧ s.composite_risk_score ≤ 1 := by
  refine ⟨?_, ?_, ?_⟩
  · unfold VulnerabilityScore.composite_risk_score spec_composite_risk_score
    simp only [clamp_comm]
  · unfold VulnerabilityScore.composite_risk_score
    exact le_max_right _ _
  · unfold VulnerabilityScore.composite_risk_score
    exact max_le (min_le_right _ _) (by norm_num)

/-- C3: the heuristic enhancement sets `ai_risk = cvss_base_score`, boosts it
to `min(10, ai_risk·1.3)` when KEV and to `min(10, ai_risk + epss·2.0)` when
the EPSS score exceeds 0.5, labels priority IMMEDIATE/HIGH/MEDIUM/LOW at the
9/7/4 thresholds, and picks the 24-hours / 7-days / 30-days / regular-cycle
urgency text exactly as the specification states. -/
theorem ai_enhance_score_matches_spec (v : VulnerabilityScore) :
    ai_enhance_score v = spec_ai_enhance v := by
  unfold ai_enhance_score spec_ai_enhance
  simp only [min_comm]

/-- C5: `assess_vulnerability` is memoized per CVE id: a call on a cached id
returns the cached score, leaves the cache untouched and runs the
enrichment-and-enhancement pipeline zero times; and after any call the id is
cached with the returned score, so every later call with the same id returns
that same score, changes nothing and re-invokes nothing. -/
theorem assess_vulnerability_memoized (flag : Bool) (cache : ScoreCache)
    (cve_id : String) (s : VulnerabilityScore) :
    (cache cve_id = some s → assess_vulnerability flag cache cve_id = (s, cache, 0)) ∧
    (assess_vulnerability flag cache cve_id).2.1 cve_id =
      some (assess_vulnerability flag cache cve_id).1 ∧
    assess_vulnerability flag (assess_vulnerability flag cache cve_id).2.1 cve_id =
      ((assess_vulnerability flag cache cve_id).1,
       (assess_vulnerability flag cache cve_id).2.1, 0) := by
  refine ⟨fun hs => by simp [assess_vulnerability, hs], ?_, ?_⟩ <;>
    cases h : cache cve_id <;> simp [assess_vulnerability, h]

/-- C9 counterexample: the parser accepts a vector whose attack-vector value
`Z` is outside the enumerated domain `{N, A, L, P}` and returns it verbatim,
so a successfully parsed `CvssV3Base` need not have its fields constrained to
the enumerated domains. -/
theorem parse_accepts_out_of_domain_value :
    (parse_cvss_v3_vector "CVSS:3.1/AV:Z/AC:L/PR:N/UI:N/S:U/C:H/I:H/A:H").toOption.map
      (fun m => m.attack_vector) = some "Z" ∧
    (parse_cvss_v3_vector "CVSS:3.1/AV:Z/AC:L/PR:N/UI:N/S:U/C:H/I:H/A:H").toOption.map
      (fun m => decide m.inEnumeratedDomains) = some false ∧
    "Z" ∉ (["N", "A", "L", "P"] : List String) := by
  refine ⟨by decide, by decide, by decide⟩

/-- C9 (amended): a successfully parsed `CvssV3Base` has all eight fields
non-empty (the only validation the parser performs); the field values
themselves are whatever strings the vector supplied, unchecked against the
enumerated domains. -/
theorem parse_ok_fields_nonempty (v : String) (m : CvssV3Base)
    (h : parse_cvss_v3_vector v = .ok m) :
    m.attack_vector ≠ "" ∧ m.attack_complexity ≠ "" ∧
    m.privileges_required ≠ "" ∧ m.user_interaction ≠ "" ∧ m.scope ≠ "" ∧
    m.confidentiality ≠ "" ∧ m.integrity ≠ "" ∧ m.availability ≠ "" := by
  simp only [parse_cvss_v3_vector] at h
  split at h
  · exact absurd h (by simp)
  · split at h
    · exact absurd h (by simp)
    · rename_i hcond
      injection h with h
      subst h
      push_neg at hcond
      exact hcond

/-- Witness for C9's amended statement at the Log4Shell vector. -/
theorem parse_ok_fields_nonempty_witness :
    log4shellMetrics.attack_vector ≠ "" ∧
    log4shellMetrics.attack_complexity ≠ "" ∧
    log4shellMetrics.privileges_required ≠ "" ∧
    log4shellMetrics.user_interaction ≠ "" ∧ log4shellMetrics.scope ≠ "" ∧
    log4shellMetrics.confidentiality ≠ "" ∧ log4shellMetrics.integrity ≠ "" ∧
    log4shellMetrics.availability ≠ "" :=
  parse_ok_fields_nonempty log4shellVector log4shellMetrics rfl

/-- C10 counterexample: on a fresh archive, looking up an unknown `scan_id`
or `cve_id` does not fail — both getters return `Ok(None)`. -/
theorem get_missing_key_counterexample :
    TheArchive.the_awakening.get_scan_metadata "nonexistent" = .ok Option.none ∧
    TheArchive.the_awakening.get_vulnerability "CVE-2024-0001" = .ok Option.none :=
  ⟨rfl, rfl⟩

/-- C10 (amended): for every archive state, a `scan_id` with no record in the
scans table makes `get_scan_metadata` return `Ok(None)`, and a `cve_id` with
no record in the vulnerabilities table makes `get_vulnerability` return
`Ok(None)` — an unknown-key lookup is a successful `None`, not an error. -/
theorem get_missing_key_ok_none (a : TheArchive) (scan_id cve_id : String)
    (h1 : a.scans scan_id = Option.none)
    (h2 : a.vulnerabilities cve_id = Option.none) :
    a.get_scan_metadata scan_id = .ok Option.none ∧
    a.get_vulnerability cve_id = .ok Option.none := by
  simp [TheArchive.get_scan_metadata, TheArchive.get_vulnerability, h1, h2]

/-- Witness for C10's amended statement on a fresh archive. -/
theorem get_missing_key_ok_none_witness :
    TheArchive.the_awakening.get_scan_metadata "scan-404" = .ok Option.none ∧
    TheArchive.the_awakening.get_vulnerability "CVE-0000-0000" = .ok Option.none :=
  get_missing_key_ok_none TheArchive.the_awakening "scan-404" "CVE-0000-0000" rfl rfl

theorem decodeCvssV3Base_enc (m : CvssV3Base) :
    decodeCvssV3Base (encodeCvssV3Base m) = some m := rfl

theorem decodeSeverity_enc (s : CvssSeverity) :
    decodeSeverity (encodeSeverity s) = some s := by cases s <;> rfl

theorem decodeSsvcDecision_enc (d : SsvcDecision) :
    decodeSsvcDecision (encodeSsvcDecision d) = some d := by cases d <;> rfl

theorem decOpt_enc_text (o : Option String) :
    decOpt decText (encOpt Cbor.text o) = some o := by cases o <;> rfl

theorem decOpt_enc_float (o : Option ℚ) :
    decOpt decRat (encOpt Cbor.float o) = some o := by cases o <;> rfl

theorem decTexts_enc (l : List String) :
    decTexts (l.map Cbor.text) = some l := by
  induction l with
  | nil => rfl
  | cons h t ih => simp [decTexts, ih]

theorem decodeCvssV3_enc (c : CvssV3) :
    decodeCvssV3 (encodeCvssV3 c) = some c := by
  simp [encodeCvssV3, decodeCvssV3, lookupField, decodeCvssV3Base_enc,
    decOpt_enc_float, decodeSeverity_enc, decText, decRat]

theorem decodeKevInfo_enc (k : KevInfo) :
    decodeKevInfo (encodeKevInfo k) = some k := by
  simp [encodeKevInfo, decodeKevInfo, lookupField, decOpt_enc_text, decBool]

theorem decodeEpssInfo_enc (e : EpssInfo) :
    decodeEpssInfo (encodeEpssInfo e) = some e := rfl

theorem decodeSsvcInfo_enc (s : SsvcInfo) :
    decodeSsvcInfo (encodeSsvcInfo s) = some s := by
  simp [encodeSsvcInfo, decodeSsvcInfo, lookupField, decodeSsvcDecision_enc,
    decText, decBool]

theorem decOpt_enc_cvss (o : Option CvssV3) :
    decOpt decodeCvssV3 (encOpt encodeCvssV3 o) = some o := by
  cases o with
  | none => rfl
  | some c =>
    show (decodeCvssV3 (encodeCvssV3 c)).map some = some (some c)
    rw [decodeCvssV3_enc]; rfl

theorem decOpt_enc_kev (o : Option KevInfo) :
    decOpt decodeKevInfo (encOpt encodeKevInfo o) = some o := by
  cases o with
  | none => rfl
  | some k =>
    show (decodeKevInfo (encodeKevInfo k)).map some = some (some k)
    rw [decodeKevInfo_enc]; rfl

theorem decOpt_enc_epss (o : Option EpssInfo) :
    decOpt decodeEpssInfo (encOpt encodeEpssInfo o) = some o := by
  cases o with
  | none => rfl
  | some e =>
    show (decodeEpssInfo (encodeEpssInfo e)).map some = some (some e)
    rw [decodeEpssInfo_enc]; rfl

theorem decOpt_enc_ssvc (o : Option SsvcInfo) :
    decOpt decodeSsvcInfo (encOpt encodeSsvcInfo o) = some o := by
  cases o with
  | none => rfl
  | some s =>
    show (decodeSsvcInfo (encodeSsvcInfo s)).map some = some (some s)
    rw [decodeSsvcInfo_enc]; rfl

theorem decodeVulnerabilityScore_enc (v : VulnerabilityScore) :
    decodeVulnerabilityScore (encodeVulnerabilityScore v) = some v := by
  simp [encodeVulnerabilityScore, decodeVulnerabilityScore, lookupField,
    decOpt_enc_text, decOpt_enc_float, decOpt_enc_cvss, decOpt_enc_kev,
    decOpt_enc_epss, decOpt_enc_ssvc, decTexts_enc, decText, decStrList]

theorem decodeStoredVulnerability_enc (s : StoredVulnerability) :
    decodeStoredVulnerability (encodeStoredVulnerability s) = some s := by
  simp [encodeStoredVulnerability, decodeStoredVulnerability, lookupField,
    decodeVulnerabilityScore_enc, decText]

theorem decodeScanMetadata_enc (m : ScanMetadata) :
    decodeScanMetadata (encodeScanMetadata m) = some m := by
  simp [encodeScanMetadata, decodeScanMetadata, lookupField, decOpt_enc_text,
    decText, decNat]

/-- C6: storing a `ScanMetadata` and retrieving it by its `scan_id`, and
storing a `VulnerabilityScore` and retrieving it by its `cve_id`, return a
value equal in all fields to the one stored: the CBOR serialization
round-trips with full fidelity through the store/get pair (the retrieved
`StoredVulnerability` carries the stored score unchanged, under the stored
key and timestamp). -/
theorem archive_store_get_roundtrip (a : TheArchive) (m : ScanMetadata)
    (s : VulnerabilityScore) (now : String) :
    (a.store_scan_metadata m).get_scan_metadata m.scan_id = .ok (some m) ∧
    (a.store_vulnerability now s).get_vulnerability s.cve_id =
      .ok (some { cve_id := s.cve_id, score := s, cached_at := now }) := by
  constructor
  · simp [TheArchive.store_scan_metadata, TheArchive.get_scan_metadata,
      decodeScanMetadata_enc]
  · simp [TheArchive.store_vulnerability, TheArchive.get_vulnerability,
      decodeStoredVulnerability_enc]

theorem splitOnChar_ne_nil (sep : Char) (l : List Char) : splitOnChar sep l ≠ [] := by
  cases l with
  | nil => simp [splitOnChar]
  | cons c cs =>
    simp only [splitOnChar]
    split_ifs
    · simp
    · split <;> simp

theorem asString_eq_empty (l : List Char) : (l.asString = "") ↔ l = [] := by
  constructor
  · intro h
    have hd := congrArg String.data h
    simpa [List.asString] using hd
  · rintro rfl
    rfl

theorem findSome?_singleton {α β : Type} (f : α → Option β) (a : α) :
    List.findSome? f [a] = f a := by
  cases h : f a <;> simp [List.findSome?, h]

theorem suppliedValue_cons (s : List Char) (segs : List (List Char))
    (key : List Char) :
    suppliedValue (s :: segs) key =
      (suppliedValue segs key).or (metricValueOf key s) := by
  simp only [suppliedValue, List.reverse_cons, List.findSome?_append,
    findSome?_singleton]

theorem suppliesMetric_iff (segs : List (List Char)) (key : List Char) :
    suppliesMetric segs key = true ↔
      ((suppliedValue segs key).map List.asString).getD "" ≠ "" := by
  unfold suppliesMetric
  cases h : suppliedValue segs key with
  | none => simp
  | some w => simp [asString_eq_empty, List.isEmpty_iff]
@[simp] theorem key_ne_AV_AC : ("AV".toList : List Char) ≠ "AC".toList := by decide
@[simp] theorem key_ne_AV_PR : ("AV".toList : List Char) ≠ "PR".toList := by decide
@[simp] theorem key_ne_AV_UI : ("AV".toList : List Char) ≠ "UI".toList := by decide
@[simp] theorem key_ne_AV_S : ("AV".toList : List Char) ≠ "S".toList := by decide
@[simp] theorem key_ne_AV_C : ("AV".toList : List Char) ≠ "C".toList := by decide
@[simp] theorem key_ne_AV_I : ("AV".toList : List Char) ≠ "I".toList := by decide
@[simp] theorem key_ne_AV_A : ("AV".toList : List Char) ≠ "A".toList := by decide
@[simp] theorem key_ne_AC_AV : ("AC".toList : List Char) ≠ "AV".toList := by decide
@[simp] theorem key_ne_AC_PR : ("AC".toList : List Char) ≠ "PR".toList := by decide
@[simp] theorem key_ne_AC_UI : ("AC".toList : List Char) ≠ "UI".toList := by decide
@[simp] theorem key_ne_AC_S : ("AC".toList : List Char) ≠ "S".toList := by decide
@[simp] theorem key_ne_AC_C : ("AC".toList : List Char) ≠ "C".toList := by decide
@[simp] theorem key_ne_AC_I : ("AC".toList : List Char) ≠ "I".toList := by decide
@[simp] theorem key_ne_AC_A : ("AC".toList : List Char) ≠ "A".toList := by decide
@[simp] theorem key_ne_PR_AV : ("PR".toList : List Char) ≠ "AV".toList := by decide
@[simp] theorem key_ne_PR_AC : ("PR".toList : List Char) ≠ "AC".toList := by decide
@[simp] theorem key_ne_PR_UI : ("PR".toList : List Char) ≠ "UI".toList := by decide
@[simp] theorem key_ne_PR_S : ("PR".toList : List Char) ≠ "S".toList := by decide
@[simp] theorem key_ne_PR_C : ("PR".toList : List Char) ≠ "C".toList := by decide
@[simp] theorem key_ne_PR_I : ("PR".toList : List Char) ≠ "I".toList := by decide
@[simp] theorem key_ne_PR_A : ("PR".toList : List Char) ≠ "A".toList := by decide
@[simp] theorem key_ne_UI_AV : ("UI".toList : List Char) ≠ "AV".toList := by decide
@[simp] theorem key_ne_UI_AC : ("UI".toList : List Char) ≠ "AC".toList := by decide
@[simp] theorem key_ne_UI_PR : ("UI".toList : List Char) ≠ "PR".toList := by decide
@[simp] theorem key_ne_UI_S : ("UI".toList : List Char) ≠ "S".toList := by decide
@[simp] theorem key_ne_UI_C : ("UI".toList : List Char) ≠ "C".toList := by decide
@[simp] theorem key_ne_UI_I : ("UI".toList : List Char) ≠ "I".toList := by decide
@[simp] theorem key_ne_UI_A : ("UI".toList : List Char) ≠ "A".toList := by decide
@[simp] theorem key_ne_S_AV : ("S".toList : List Char) ≠ "AV".toList := by decide
@[simp] theorem key_ne_S_AC : ("S".toList : List Char) ≠ "AC".toList := by decide
@[simp] theorem key_ne_S_PR : ("S".toList : List Char) ≠ "PR".toList := by decide
@[simp] theorem key_ne_S_UI : ("S".toList : List Char) ≠ "UI".toList := by decide
@[simp] theorem key_ne_S_C : ("S".toList : List Char) ≠ "C".toList := by decide
@[simp] theorem key_ne_S_I : ("S".toList : List Char) ≠ "I".toList := by decide
@[simp] theorem key_ne_S_A : ("S".toList : List Char) ≠ "A".toList := by decide
@[simp] theorem key_ne_C_AV : ("C".toList : List Char) ≠ "AV".toList := by decide
@[simp] theorem key_ne_C_AC : ("C".toList : List Char) ≠ "AC".toList := by decide
@[simp] theorem key_ne_C_PR : ("C".toList : List Char) ≠ "PR".toList := by decide
@[simp] theorem key_ne_C_UI : ("C".toList : List Char) ≠ "UI".toList := by decide
@[simp] theorem key_ne_C_S : ("C".toList : List Char) ≠ "S".toList := by decide
@[simp] theorem key_ne_C_I : ("C".toList : List Char) ≠ "I".toList := by decide
@[simp] theorem key_ne_C_A : ("C".toList : List Char) ≠ "A".toList := by decide
@[simp] theorem key_ne_I_AV : ("I".toList : List Char) ≠ "AV".toList := by decide
@[simp] theorem key_ne_I_AC : ("I".toList : List Char) ≠ "AC".toList := by decide
@[simp] theorem key_ne_I_PR : ("I".toList : List Char) ≠ "PR".toList := by decide
@[simp] theorem key_ne_I_UI : ("I".toList : List Char) ≠ "UI".toList := by decide
@[simp] theorem key_ne_I_S : ("I".toList : List Char) ≠ "S".toList := by decide
@[simp] theorem key_ne_I_C : ("I".toList : List Char) ≠ "C".toList := by decide
@[simp] theorem key_ne_I_A : ("I".toList : List Char) ≠ "A".toList := by decide
@[simp] theorem key_ne_A_AV : ("A".toList : List Char) ≠ "AV".toList := by decide
@[simp] theorem key_ne_A_AC : ("A".toList : List Char) ≠ "AC".toList := by decide
@[simp] theorem key_ne_A_PR : ("A".toList : List Char) ≠ "PR".toList := by decide
@[simp] theorem key_ne_A_UI : ("A".toList : List Char) ≠ "UI".toList := by decide
@[simp] theorem key_ne_A_S : ("A".toList : List Char) ≠ "S".toList := by decide
@[simp] theorem key_ne_A_C : ("A".toList : List Char) ≠ "C".toList := by decide
@[simp] theorem key_ne_A_I : ("A".toList : List Char) ≠ "I".toList := by decide

theorem applyPart_field_attack_vector (m : CvssV3Base) (part : List Char) :
    (applyPart m part).attack_vector =
      ((metricValueOf "AV".toList part).map List.asString).getD m.attack_vector := by
  unfold applyPart metricValueOf
  split
  all_goals first
  | (split_ifs <;> simp_all)
  | simp

theorem applyPart_field_attack_complexity (m : CvssV3Base) (part : List Char) :
    (applyPart m part).attack_complexity =
      ((metricValueOf "AC".toList part).map List.asString).getD m.attack_complexity := by
  unfold applyPart metricValueOf
  split
  all_goals first
  | (split_ifs <;> simp_all)
  | simp

theorem applyPart_field_privileges_required (m : CvssV3Base) (part : List Char) :
    (applyPart m part).privileges_required =
      ((metricValueOf "PR".toList part).map List.asString).getD m.privileges_required := by
  unfold applyPart metricValueOf
  split
  all_goals first
  | (split_ifs <;> simp_all)
  | simp

theorem applyPart_field_user_interaction (m : CvssV3Base) (part : List Char) :
    (applyPart m part).user_interaction =
      ((metricValueOf "UI".toList part).map List.asString).getD m.user_interaction := by
  unfold applyPart metricValueOf
  split
  all_goals first
  | (split_ifs <;> simp_all)
  | simp

theorem applyPart_field_scope (m : CvssV3Base) (part : List Char) :
    (applyPart m part).scope =
      ((metricValueOf "S".toList part).map List.asString).getD m.scope := by
  unfold applyPart metricValueOf
  split
  all_goals first
  | (split_ifs <;> simp_all)
  | simp

theorem applyPart_field_confidentiality (m : CvssV3Base) (part : List Char) :
    (applyPart m part).confidentiality =
      ((metricValueOf "C".toList part).map List.asString).getD m.confidentiality := by
  unfold applyPart metricValueOf
  split
  all_goals first
  | (split_ifs <;> simp_all)
  | simp

theorem applyPart_field_integrity (m : CvssV3Base) (part : List Char) :
    (applyPart m part).integrity =
      ((metricValueOf "I".toList part).map List.asString).getD m.integrity := by
  unfold applyPart metricValueOf
  split
  all_goals first
  | (split_ifs <;> simp_all)
  | simp

theorem applyPart_field_availability (m : CvssV3Base) (part : List Char) :
    (applyPart m part).availability =
      ((metricValueOf "A".toList part).map List.asString).getD m.availability := by
  unfold applyPart metricValueOf
  split
  all_goals first
  | (split_ifs <;> simp_all)
  | simp

theorem foldl_applyPart_attack_vector (segs : List (List Char)) (m : CvssV3Base) :
    (segs.foldl applyPart m).attack_vector =
      ((suppliedValue segs "AV".toList).map List.asString).getD m.attack_vector := by
  induction segs generalizing m with
  | nil => rfl
  | cons s rest ih =>
    rw [List.foldl_cons, ih, suppliedValue_cons, applyPart_field_attack_vector]
    cases hsv : suppliedValue rest ("AV".toList) <;> simp [Option.or]

theorem foldl_applyPart_attack_complexity (segs : List (List Char)) (m : CvssV3Base) :
    (segs.foldl applyPart m).attack_complexity =
      ((suppliedValue segs "AC".toList).map List.asString).getD m.attack_complexity := by
  induction segs generalizing m with
  | nil => rfl
  | cons s rest ih =>
    rw [List.foldl_cons, ih, suppliedValue_cons, applyPart_field_attack_complexity]
    cases hsv : suppliedValue rest ("AC".toList) <;> simp [Option.or]

theorem foldl_applyPart_privileges_required (segs : List (List Char)) (m : CvssV3Base) :
    (segs.foldl applyPart m).privileges_required =
      ((suppliedValue segs "PR".toList).map List.asString).getD m.privileges_required := by
  induction segs generalizing m with
  | nil => rfl
  | cons s rest ih =>
    rw [List.foldl_cons, ih, suppliedValue_cons, applyPart_field_privileges_required]
    cases hsv : suppliedValue rest ("PR".toList) <;> simp [Option.or]

theorem foldl_applyPart_user_interaction (segs : List (List Char)) (m : CvssV3Base) :
    (segs.foldl applyPart m).user_interaction =
      ((suppliedValue segs "UI".toList).map List.asString).getD m.user_interaction := by
  induction segs generalizing m with
  | nil => rfl
  | cons s rest ih =>
    rw [List.foldl_cons, ih, suppliedValue_cons, applyPart_field_user_interaction]
    cases hsv : suppliedValue rest ("UI".toList) <;> simp [Option.or]

theorem foldl_applyPart_scope (segs : List (List Char)) (m : CvssV3Base) :
    (segs.foldl applyPart m).scope =
      ((suppliedValue segs "S".toList).map List.asString).getD m.scope := by
  induction segs generalizing m with
  | nil => rfl
  | cons s rest ih =>
    rw [List.foldl_cons, ih, suppliedValue_cons, applyPart_field_scope]
    cases hsv : suppliedValue rest ("S".toList) <;> simp [Option.or]

theorem foldl_applyPart_confidentiality (segs : List (List Char)) (m : CvssV3Base) :
    (segs.foldl applyPart m).confidentiality =
      ((suppliedValue segs "C".toList).map List.asString).getD m.confidentiality := by
  induction segs generalizing m with
  | nil => rfl
  | cons s rest ih =>
    rw [List.foldl_cons, ih, suppliedValue_cons, applyPart_field_confidentiality]
    cases hsv : suppliedValue rest ("C".toList) <;> simp [Option.or]

theorem foldl_applyPart_integrity (segs : List (List Char)) (m : CvssV3Base) :
    (segs.foldl applyPart m).integrity =
      ((suppliedValue segs "I".toList).map List.asString).getD m.integrity := by
  induction segs generalizing m with
  | nil => rfl
  | cons s rest ih =>
    rw [List.foldl_cons, ih, suppliedValue_cons, applyPart_field_integrity]
    cases hsv : suppliedValue rest ("I".toList) <;> simp [Option.or]

theorem foldl_applyPart_availability (segs : List (List Char)) (m : CvssV3Base) :
    (segs.foldl applyPart m).availability =
      ((suppliedValue segs "A".toList).map List.asString).getD m.availability := by
  induction segs generalizing m with
  | nil => rfl
  | cons s rest ih =>
    rw [List.foldl_cons, ih, suppliedValue_cons, applyPart_field_availability]
    cases hsv : suppliedValue rest ("A".toList) <;> simp [Option.or]

theorem applyPart_not_recognized (m : CvssV3Base) (s : List Char)
    (h : recognizedPair s = false) : applyPart m s = m := by
  unfold recognizedPair at h
  unfold applyPart
  generalize hsp : splitOnChar ':' s = ks at h ⊢
  rcases ks with _ | ⟨k, _ | ⟨w, _ | _⟩⟩ <;> try rfl
  simp only [decide_eq_false_iff_not, requiredKeys, List.mem_cons,
    List.not_mem_nil, or_false, not_or] at h
  obtain ⟨h1, h2, h3, h4, h5, h6, h7, h8⟩ := h
  simp_all

theorem allSupplied_iff (segs : List (List Char)) :
    (∀ key ∈ requiredKeys, suppliesMetric segs key = true) ↔
      ¬ ((segs.foldl applyPart emptyMetrics).attack_vector = "" ∨
         (segs.foldl applyPart emptyMetrics).attack_complexity = "" ∨
         (segs.foldl applyPart emptyMetrics).privileges_required = "" ∨
         (segs.foldl applyPart emptyMetrics).user_interaction = "" ∨
         (segs.foldl applyPart emptyMetrics).scope = "" ∨
         (segs.foldl applyPart emptyMetrics).confidentiality = "" ∨
         (segs.foldl applyPart emptyMetrics).integrity = "" ∨
         (segs.foldl applyPart emptyMetrics).availability = "") := by
  rw [foldl_applyPart_attack_vector, foldl_applyPart_attack_complexity,
    foldl_applyPart_privileges_required, foldl_applyPart_user_interaction,
    foldl_applyPart_scope, foldl_applyPart_confidentiality,
    foldl_applyPart_integrity, foldl_applyPart_availability]
  simp only [requiredKeys, List.forall_mem_cons, suppliesMetric_iff,
    emptyMetrics, not_or]
  simp only [List.not_mem_nil, false_implies, implies_true, and_true, ne_eq]

/-- C4: `parse_cvss_v3_vector` succeeds exactly when the first `/`-segment of
the input starts with the recognized `CVSS:3` version prefix and the
remaining `/`-separated `KEY:VALUE` segments supply all 8 required metrics;
when the prefix is absent or a required metric is missing it returns a parse
error (one of the two error messages) and no partial `CvssV3Base`; and
segments whose key is not one of the 8 required metrics never affect the
parsed result (they are silently ignored). -/
theorem parse_vector_success_iff (v : String) :
    ((parse_cvss_v3_vector v).isOk = true ↔
      (List.isPrefixOf "CVSS:3".toList ((splitOnChar '/' v.toList).headD []) = true ∧
       ∀ key ∈ requiredKeys,
         suppliesMetric (splitOnChar '/' v.toList).tail key = true)) ∧
    ((parse_cvss_v3_vector v).isOk = false →
      parse_cvss_v3_vector v = .error "Invalid CVSS v3 vector string" ∨
      parse_cvss_v3_vector v = .error "Missing required CVSS metrics") ∧
    (∀ (segs : List (List Char)) (m : CvssV3Base),
      (segs.filter recognizedPair).foldl applyPart m = segs.foldl applyPart m) := by
  have hne : (splitOnChar '/' v.toList).isEmpty = false := by
    cases h : splitOnChar '/' v.toList with
    | nil => exact absurd h (splitOnChar_ne_nil _ _)
    | cons a l => rfl
  refine ⟨?_, ?_, ?_⟩
  · simp only [parse_cvss_v3_vector]
    split_ifs with hc1 hc2
    · have hpre : ¬ (List.isPrefixOf "CVSS:3".toList
          ((splitOnChar '/' v.toList).headD []) = true) := by
        rcases hc1 with h | h
        · rw [h] at hne; exact absurd hne (by simp)
        · exact h
      exact iff_of_false (by simp [Except.isOk, Except.toBool]) (fun h => hpre h.1)
    · exact iff_of_false (by simp [Except.isOk, Except.toBool])
        (fun h => (allSupplied_iff _).mp h.2 hc2)
    · have hpre : List.isPrefixOf "CVSS:3".toList
          ((splitOnChar '/' v.toList).headD []) = true := by
        rcases not_or.mp hc1 with ⟨-, h⟩
        exact of_not_not h
      exact iff_of_true rfl ⟨hpre, (allSupplied_iff _).mpr hc2⟩
  · simp only [parse_cvss_v3_vector]
    split_ifs with hc1 hc2
    · intro _; left; rfl
    · intro _; right; rfl
    · intro h; exact absurd h (by simp [Except.isOk, Except.toBool])
  · intro segs m
    induction segs generalizing m with
    | nil => rfl
    | cons s rest ih =>
      by_cases hr : recognizedPair s = true
      · simp only [List.filter_cons, hr, if_true, List.foldl_cons]
        exact ih (applyPart m s)
      · have hr' : recognizedPair s = false := by
          simpa using hr
        simp only [List.filter_cons, hr', Bool.false_eq_true, if_false,
          List.foldl_cons, applyPart_not_recognized m s hr']
        exact ih m

theorem ordCmp_swap {α : Type} [LinearOrder α] (x y : α) :
    (ordCmp x y).swap = ordCmp y x := by
  rcases lt_trichotomy x y with h | h | h
  · simp [ordCmp, h, h.asymm, h.ne, h.ne', Ordering.swap]
  · subst h; simp [ordCmp, lt_irrefl, Ordering.swap]
  · simp [ordCmp, h, h.asymm, h.ne, h.ne', Ordering.swap]

theorem ordCmp_ne_gt {α : Type} [LinearOrder α] (x y : α) :
    (¬ ordCmp x y = Ordering.gt) ↔ x ≤ y := by
  rcases lt_trichotomy x y with h | h | h
  · simp [ordCmp, h, h.le]
  · subst h; simp [ordCmp, lt_irrefl]
  · simp [ordCmp, h, h.asymm, h.ne', not_le.mpr h]

theorem sortLe_trans (f : SortField) (ord : SortOrder)
    (a b c : StoredVulnerability) :
    sortLe f ord a b = true → sortLe f ord b c = true →
    sortLe f ord a c = true := by
  cases ord <;> cases f <;>
    simp only [sortLe, sortKeyCmp, ordCmp_swap, decide_eq_true_eq,
      ordCmp_ne_gt] <;>
    first
    | exact fun h1 h2 => le_trans h1 h2
    | exact fun h1 h2 => le_trans h2 h1

theorem sortLe_total (f : SortField) (ord : SortOrder)
    (a b : StoredVulnerability) :
    (sortLe f ord a b || sortLe f ord b a) = true := by
  cases ord <;> cases f <;>
    simp only [sortLe, sortKeyCmp, ordCmp_swap, Bool.or_eq_true,
      decide_eq_true_eq, ordCmp_ne_gt] <;>
    exact le_total _ _

/-- C7: `query_vulnerabilities` filters conjunctively (a vulnerability passes
exactly when it satisfies every specified filter field, and the empty filter
set matches everything), then — when a sort field is specified — sorts the
filtered snapshot by the requested field (descending by default), and finally
returns exactly the `[offset, offset+limit)` slice of that filtered-and-
sorted sequence, offset defaulting to 0 and limit to no limit. -/
theorem query_vulnerabilities_correct (fi : QueryFilters)
    (l : List StoredVulnerability) (v : StoredVulnerability) :
    (QueryFilters.new.matches v = true) ∧
    (fi.matches v = true ↔
      ((∀ sev ∈ fi.severity,
          containsSubstr (CvssSeverity.as_str v.score.severity).toLower
            sev.toLower = true) ∧
       (∀ b ∈ fi.is_kev, v.score.is_kev = b) ∧
       (∀ q ∈ fi.min_cvss, ¬ v.score.cvss_base_score < q) ∧
       (∀ q ∈ fi.max_cvss, ¬ q < v.score.cvss_base_score) ∧
       (∀ d ∈ fi.cached_after, ¬ v.cached_at < d) ∧
       (∀ d ∈ fi.cached_before, ¬ d < v.cached_at))) ∧
    (query_vulnerabilities fi l =
      takeOpt fi.limit
        ((query_vulnerabilities
            { fi with offset := Option.none, limit := Option.none } l).drop
          (fi.offset.getD 0))) ∧
    (∀ sf, fi.sort_by = some sf →
      List.Pairwise
        (fun a b => sortLe sf (fi.sort_order.getD .descending) a b = true)
        (query_vulnerabilities
          { fi with offset := Option.none, limit := Option.none } l)) := by
  obtain ⟨sev, kev, minc, maxc, ca, cb, sb, so, lim, off⟩ := fi
  refine ⟨rfl, ?_, ?_, ?_⟩
  · cases sev <;> cases kev <;> cases minc <;> cases maxc <;> cases ca <;>
      cases cb <;>
      simp [QueryFilters.matches, Option.mem_def, beq_iff_eq, and_assoc]
  · cases sb <;> cases lim <;> cases off <;>
      simp [query_vulnerabilities, takeOpt, QueryFilters.matches]
  · intro sf hsf
    cases sb with
    | none => exact absurd hsf (by simp)
    | some sf0 =>
      obtain rfl : sf0 = sf := by simpa using hsf
      simp only [query_vulnerabilities, takeOpt, List.drop_zero]
      exact List.sorted_mergeSort (sortLe_trans _ _) (sortLe_total _ _) _

theorem add_result_critical_count (rep : ScanReport) (r : ScanResult) :
    (rep.add_result r).critical_count = rep.critical_count +
      (if r.vulnerability_score.map VulnerabilityScore.severity =
          some CvssSeverity.critical then 1 else 0) := by
  cases h : r.vulnerability_score with
  | none =>
    simp only [ScanReport.add_result, h]
    split_ifs <;> simp_all
  | some sc =>
    cases hs : sc.severity <;> simp only [ScanReport.add_result, h, hs] <;>
      split_ifs <;> simp_all

theorem add_result_high_count (rep : ScanReport) (r : ScanResult) :
    (rep.add_result r).high_count = rep.high_count +
      (if r.vulnerability_score.map VulnerabilityScore.severity =
          some CvssSeverity.high then 1 else 0) := by
  cases h : r.vulnerability_score with
  | none =>
    simp only [ScanReport.add_result, h]
    split_ifs <;> simp_all
  | some sc =>
    cases hs : sc.severity <;> simp only [ScanReport.add_result, h, hs] <;>
      split_ifs <;> simp_all

theorem add_result_medium_count (rep : ScanReport) (r : ScanResult) :
    (rep.add_result r).medium_count = rep.medium_count +
      (if r.vulnerability_score.map VulnerabilityScore.severity =
          some CvssSeverity.medium then 1 else 0) := by
  cases h : r.vulnerability_score with
  | none =>
    simp only [ScanReport.add_result, h]
    split_ifs <;> simp_all
  | some sc =>
    cases hs : sc.severity <;> simp only [ScanReport.add_result, h, hs] <;>
      split_ifs <;> simp_all

theorem add_result_low_count (rep : ScanReport) (r : ScanResult) :
    (rep.add_result r).low_count = rep.low_count +
      (if r.vulnerability_score.map VulnerabilityScore.severity =
          some CvssSeverity.low then 1 else 0) := by
  cases h : r.vulnerability_score with
  | none =>
    simp only [ScanReport.add_result, h]
    split_ifs <;> simp_all
  | some sc =>
    cases hs : sc.severity <;> simp only [ScanReport.add_result, h, hs] <;>
      split_ifs <;> simp_all

theorem add_result_kev_count (rep : ScanReport) (r : ScanResult) :
    (rep.add_result r).kev_count = rep.kev_count +
      (if r.is_kev then 1 else 0) := by
  cases h : r.vulnerability_score with
  | none =>
    simp only [ScanReport.add_result, h]
    split_ifs <;> simp_all
  | some sc =>
    cases hs : sc.severity <;> simp only [ScanReport.add_result, h, hs] <;>
      split_ifs <;> simp_all

theorem foldl_add_result_counts (rs : List ScanResult) (rep : ScanReport) :
    (rs.foldl ScanReport.add_result rep).critical_count =
      rep.critical_count + rs.countP (hasSeverity .critical) ∧
    (rs.foldl ScanReport.add_result rep).high_count =
      rep.high_count + rs.countP (hasSeverity .high) ∧
    (rs.foldl ScanReport.add_result rep).medium_count =
      rep.medium_count + rs.countP (hasSeverity .medium) ∧
    (rs.foldl ScanReport.add_result rep).low_count =
      rep.low_count + rs.countP (hasSeverity .low) ∧
    (rs.foldl ScanReport.add_result rep).kev_count =
      rep.kev_count + rs.countP ScanResult.is_kev := by
  induction rs generalizing rep with
  | nil => simp
  | cons r rest ih =>
    obtain ⟨ih1, ih2, ih3, ih4, ih5⟩ := ih (rep.add_result r)
    refine ⟨?_, ?_, ?_, ?_, ?_⟩ <;>
      simp only [List.foldl_cons, List.countP_cons, ih1, ih2, ih3, ih4, ih5,
        add_result_critical_count, add_result_high_count,
        add_result_medium_count, add_result_low_count, add_result_kev_count,
        hasSeverity, decide_eq_true_eq] <;>
      split_ifs <;> omega

/-- C8: after adding any sequence of scan results to a fresh `ScanReport` via
`add_result`, the critical/high/medium/low counters each equal the number of
added results whose embedded vulnerability score has that computed severity,
`kev_count` equals the number of added results whose KEV flag is set, and all
five counters are the same for every insertion order of the same multiset of
results — no double counting, no omissions. -/
theorem scan_report_counts (sid tgt : String) (now : Nat)
    (rs rs' : List ScanResult) (hperm : rs.Perm rs') :
    ((rs.foldl ScanReport.add_result (ScanReport.new sid tgt now)).critical_count
       = rs.countP (hasSeverity .critical)) ∧
    ((rs.foldl ScanReport.add_result (ScanReport.new sid tgt now)).high_count
       = rs.countP (hasSeverity .high)) ∧
    ((rs.foldl ScanReport.add_result (ScanReport.new sid tgt now)).medium_count
       = rs.countP (hasSeverity .medium)) ∧
    ((rs.foldl ScanReport.add_result (ScanReport.new sid tgt now)).low_count
       = rs.countP (hasSeverity .low)) ∧
    ((rs.foldl ScanReport.add_result (ScanReport.new sid tgt now)).kev_count
       = rs.countP ScanResult.is_kev) ∧
    ((rs.foldl ScanReport.add_result (ScanReport.new sid tgt now)).critical_count
       = (rs'.foldl ScanReport.add_result (ScanReport.new sid tgt now)).critical_count) ∧
    ((rs.foldl ScanReport.add_result (ScanReport.new sid tgt now)).high_count
       = (rs'.foldl ScanReport.add_result (ScanReport.new sid tgt now)).high_count) ∧
    ((rs.foldl ScanReport.add_result (ScanReport.new sid tgt now)).medium_count
       = (rs'.foldl ScanReport.add_result (ScanReport.new sid tgt now)).medium_count) ∧
    ((rs.foldl ScanReport.add_result (ScanReport.new sid tgt now)).low_count
       = (rs'.foldl ScanReport.add_result (ScanReport.new sid tgt now)).low_count) ∧
    ((rs.foldl ScanReport.add_result (ScanReport.new sid tgt now)).kev_count
       = (rs'.foldl ScanReport.add_result (ScanReport.new sid tgt now)).kev_count) := by
  obtain ⟨h1, h2, h3, h4, h5⟩ :=
    foldl_add_result_counts rs (ScanReport.new sid tgt now)
  obtain ⟨g1, g2, g3, g4, g5⟩ :=
    foldl_add_result_counts rs' (ScanReport.new sid tgt now)
  simp only [ScanReport.new, Nat.zero_add] at h1 h2 h3 h4 h5 g1 g2 g3 g4 g5
  simp only [ScanReport.new]
  refine ⟨h1, h2, h3, h4, h5, ?_, ?_, ?_, ?_, ?_⟩
  · rw [h1, g1, List.Perm.countP_eq _ hperm]
  · rw [h2, g2, List.Perm.countP_eq _ hperm]
  · rw [h3, g3, List.Perm.countP_eq _ hperm]
  · rw [h4, g4, List.Perm.countP_eq _ hperm]
  · rw [h5, g5, List.Perm.countP_eq _ hperm]

/-- Witness for C8 on a two-element scan with one Critical and one KEV
result, in both insertion orders. -/
theorem scan_report_counts_witness :
    (([sampleKevResult, sampleCriticalResult].foldl ScanReport.add_result
        (ScanReport.new "scan-1" "10.0.0.0/24" 0)).critical_count =
      [sampleKevResult, sampleCriticalResult].countP (hasSeverity .critical)) ∧
    (([sampleKevResult, sampleCriticalResult].foldl ScanReport.add_result
        (ScanReport.new "scan-1" "10.0.0.0/24" 0)).kev_count =
      [sampleKevResult, sampleCriticalResult].countP ScanResult.is_kev) ∧
    (([sampleKevResult, sampleCriticalResult].foldl ScanReport.add_result
        (ScanReport.new "scan-1" "10.0.0.0/24" 0)).critical_count =
      (([sampleCriticalResult, sampleKevResult].foldl ScanReport.add_result
        (ScanReport.new "scan-1" "10.0.0.0/24" 0)).critical_count)) :=
  ⟨(scan_report_counts "scan-1" "10.0.0.0/24" 0 _ _
      (List.Perm.swap sampleCriticalResult sampleKevResult [])).1,
   (scan_report_counts "scan-1" "10.0.0.0/24" 0 _ _
      (List.Perm.swap sampleCriticalResult sampleKevResult [])).2.2.2.2.1,
   (scan_report_counts "scan-1" "10.0.0.0/24" 0 _ _
      (List.Perm.swap sampleCriticalResult sampleKevResult [])).2.2.2.2.2.1⟩

/-! ## Cross-checks against the source's own test values

The source's unit tests (`cvss.rs`, `types.rs`) pin concrete outcomes; the
embedding reproduces every one of them. -/

theorem roundup_eq_of_ceil (q : ℚ) (n : ℤ) (h : ⌈q * 10⌉ = n) :
    roundup q = n / 10 := by simp [roundup, h]

/-- The source test `test_roundup`: 7.33 rounds up to 7.4. -/
theorem roundup_examples :
    roundup 7.33 = 7.4 ∧ roundup 4.0 = 4.0 ∧ roundup 5.567 = 5.6 := by
  refine ⟨?_, ?_, ?_⟩
  · rw [roundup_eq_of_ceil _ 74 (by norm_num [Int.ceil_eq_iff])]; norm_num
  · rw [roundup_eq_of_ceil _ 40 (by norm_num [Int.ceil_eq_iff])]; norm_num
  · rw [roundup_eq_of_ceil _ 56 (by norm_num [Int.ceil_eq_iff])]; norm_num

/-- The source test `test_calculate_high_score`: the scope-unchanged all-High
network vector scores 9.8. -/
theorem cvss_score_unchanged_all_high :
    calculate_cvss_v3_base_score
      { attack_vector := "N", attack_complexity := "L",
        privileges_required := "N", user_interaction := "N", scope := "U",
        confidentiality := "H", integrity := "H", availability := "H" } = 9.8 := by
  simp [calculate_cvss_v3_base_score, confidentiality_impact,
    integrity_impact, availability_impact, attack_vector_value,
    attack_complexity_value, privileges_required_value,
    user_interaction_value]
  norm_num [min_def]
  rw [roundup_eq_of_ceil _ 98 (by norm_num [Int.ceil_eq_iff])]; norm_num

/-- The source test `test_calculate_critical_score`: the Log4Shell
scope-changed vector scores exactly 10. -/
theorem cvss_score_log4shell :
    calculate_cvss_v3_base_score log4shellMetrics = 10 := by
  simp [calculate_cvss_v3_base_score, log4shellMetrics,
    confidentiality_impact, integrity_impact, availability_impact,
    attack_vector_value, attack_complexity_value, privileges_required_value,
    user_interaction_value]
  norm_num [min_def]
  rw [roundup_eq_of_ceil _ 100 (by norm_num [Int.ceil_eq_iff])]; norm_num

/-- The source test `test_calculate_medium_score`: the medium vector scores
5.5, inside `[4.0, 7.0)`. -/
theorem cvss_score_medium :
    calculate_cvss_v3_base_score
      { attack_vector := "N", attack_complexity := "L",
        privileges_required := "L", user_interaction := "R", scope := "U",
        confidentiality := "L", integrity := "L", availability := "L" } = 5.5 := by
  simp [calculate_cvss_v3_base_score, confidentiality_impact,
    integrity_impact, availability_impact, attack_vector_value,
    attack_complexity_value, privileges_required_value,
    user_interaction_value]
  norm_num [min_def]
  rw [roundup_eq_of_ceil _ 55 (by norm_num [Int.ceil_eq_iff])]; norm_num

/-- The severity bands at the tested scores (`test_severity_from_score`). -/
theorem severity_from_score_examples :
    CvssSeverity.from_score 0 = .none ∧ CvssSeverity.from_score 3.5 = .low ∧
    CvssSeverity.from_score 5 = .medium ∧ CvssSeverity.from_score 7.5 = .high ∧
    CvssSeverity.from_score 9.8 = .critical ∧
    CvssSeverity.from_score 10 = .critical := by
  refine ⟨?_, ?_, ?_, ?_, ?_, ?_⟩ <;> norm_num [CvssSeverity.from_score]

/-- `test_parse_cvss_v3_vector`: the Log4Shell vector parses to exactly the
expected eight fields. -/
theorem parse_log4shell_vector :
    parse_cvss_v3_vector log4shellVector = .ok log4shellMetrics := rfl

/-- `test_invalid_vector`: a string without the version prefix fails. -/
theorem parse_invalid_vector :
    parse_cvss_v3_vector "invalid" = .error "Invalid CVSS v3 vector string" := rfl

/-- A vector missing one required metric (no `A:` component) fails. -/
theorem parse_missing_metric :
    parse_cvss_v3_vector "CVSS:3.1/AV:N/AC:L/PR:N/UI:N/S:U/C:H/I:H" =
      .error "Missing required CVSS metrics" := rfl

/-- `test_calculate_critical_score` end to end: the Log4Shell vector yields
base score 10 and Critical severity through `cvss_v3_from_vector`. -/
theorem cvss_v3_from_vector_log4shell :
    (cvss_v3_from_vector log4shellVector).toOption.map
      (fun c => (c.base_score, c.severity)) =
      some (10, CvssSeverity.critical) := by
  with_unfolding_all decide

/-- `test_composite_risk_score`: a CVSS-only 9.8 record has composite risk
0.98 (normalized, unblended, unclamped at this value). -/
theorem composite_risk_example :
    ({ VulnerabilityScore.new "CVE-2024-0001" with
       cvss_v3 := some
         { base_metrics := log4shellMetrics, base_score := 9.8,
           temporal_score := Option.none, environmental_score := Option.none,
           severity := .critical,
           vector_string := log4shellVector } } :
      VulnerabilityScore).composite_risk_score = 0.98 := by
  norm_num [VulnerabilityScore.composite_risk_score,
    VulnerabilityScore.cvss_base_score, VulnerabilityScore.is_kev,
    VulnerabilityScore.new, min_def, max_def]

/-- `test_assess_vulnerability` end to end on the deterministic stubs: a
fresh assessment of Log4Shell is KEV, scores CVSS 10, carries the capped AI
risk 10, and is prioritized IMMEDIATE with the 24-hour urgency text. -/
theorem assess_log4shell_example :
    ((assess_vulnerability true (fun _ => Option.none) "CVE-2021-44228").1.is_kev
      = true) ∧
    ((assess_vulnerability true (fun _ => Option.none) "CVE-2021-44228").1.cvss_base_score
      = 10) ∧
    ((assess_vulnerability true (fun _ => Option.none) "CVE-2021-44228").1.ai_risk_score
      = some 10) ∧
    ((assess_vulnerability true (fun _ => Option.none) "CVE-2021-44228").1.ai_priority
      = some "IMMEDIATE") ∧
    ((assess_vulnerability true (fun _ => Option.none) "CVE-2021-44228").1.ai_remediation_urgency
      = some "Patch within 24 hours") := by
  with_unfolding_all decide

/-- The heuristic enhancement on a non-KEV record with CVSS 5.5 and EPSS 0.6:
the EPSS boost fires (0.6 > 0.5), giving `ai_risk = 5.5 + 1.2 = 6.7`, the
MEDIUM priority band and the regular-cycle urgency. -/
theorem ai_enhance_medium_example :
    (ai_enhance_score
      { VulnerabilityScore.new "CVE-2024-0002" with
        cvss_v3 := some
          { base_metrics := log4shellMetrics, base_score := 5.5,
            temporal_score := Option.none, environmental_score := Option.none,
            severity := .medium, vector_string := "" },
        epss := some { score := 0.6, percentile := 0.5, date := "2024-01-15" } }).ai_risk_score
      = some 6.7 ∧
    (ai_enhance_score
      { VulnerabilityScore.new "CVE-2024-0002" with
        cvss_v3 := some
          { base_metrics := log4shellMetrics, base_score := 5.5,
            temporal_score := Option.none, environmental_score := Option.none,
            severity := .medium, vector_string := "" },
        epss := some { score := 0.6, percentile := 0.5, date := "2024-01-15" } }).ai_priority
      = some "MEDIUM" ∧
    (ai_enhance_score
      { VulnerabilityScore.new "CVE-2024-0002" with
        cvss_v3 := some
          { base_metrics := log4shellMetrics, base_score := 5.5,
            temporal_score := Option.none, environmental_score := Option.none,
            severity := .medium, vector_string := "" },
        epss := some { score := 0.6, percentile := 0.5, date := "2024-01-15" } }).ai_remediation_urgency
      = some "Patch as part of regular cycle" := by
  with_unfolding_all decide
